import Mathlib

/-!
Verification of the `BVSRestraint` class from
`src/diffpy/srfit/structure/bvsrestraint.py`.

The class wraps an external bond-valence-sum calculator
(`diffpy.srreal.bvscalculator.BVSCalculator`) as a restraint: `penalty(w)`
evaluates the calculator on the restrained structure, divides the raw
mean-square divergence by `sig**2`, and multiplies by `w` when `scaled` is
set; `_validate()` re-runs `penalty()` and raises `AttributeError` when the
result `p` satisfies `p is None or p is nan` (an object-identity test
against the interned `numpy.nan` float object).

Modelling choices:
* Python float values are modelled exactly by rationals; a float object is
  either a finite value, the interned `numpy.nan` object itself, or a NaN
  living in a freshly allocated float object.  CPython float arithmetic
  (`/=`, `*=`) always allocates a fresh result object, so arithmetic on a
  NaN yields `nanFresh`, never `nanObj` — this is exactly the distinction
  the `p is nan` identity test in `_validate` observes.
* The external calculator together with the current state of the shared
  structure is modelled as a map `bvmsOf` from structure references to the
  raw divergence value the calculator reports for the structure a
  reference currently denotes.  `penalty` looks this map up at call time,
  mirroring `self._calc.eval(self._stru)` reading the current structure
  state on every call.
* Python exceptions are modelled with `Except`: dividing `None` by a float
  raises `TypeError`, dividing a float by zero raises
  `ZeroDivisionError`, and `_validate` raises `AttributeError`.
-/

/-- A Python float object: a finite value, the interned `numpy.nan`
object, or a NaN in a freshly allocated float object. -/
inductive PyFloat where
  | fin (q : ℚ)
  | nanObj
  | nanFresh
deriving DecidableEq

/-- A Python value flowing through `penalty` and `_validate`: `None` or a
float object. -/
inductive PyVal where
  | none
  | float (f : PyFloat)
deriving DecidableEq

/-- Exceptions raised by the modelled code paths. -/
inductive PyErr where
  | typeError
  | zeroDivisionError
  | attributeError
deriving DecidableEq

/-- A Python number passed as an argument: an `int` (which subsumes
`bool`: `False` is `int 0`, `True` is `int 1`) or a finite float. -/
inductive PyNum where
  | int (n : ℤ)
  | float (q : ℚ)
deriving DecidableEq

/-- Python `float(x)` on a number. -/
def PyNum.toFloat : PyNum → ℚ
  | .int n => (n : ℚ)
  | .float q => q

/-- Python `bool(x)` on a number: truthiness is being nonzero. -/
def PyNum.toBool : PyNum → Bool
  | .int n => decide (n ≠ 0)
  | .float q => decide (q ≠ 0)

/-- Python `x / s` for `x` a value and `s` a finite float: `None / s` is a
`TypeError`, division by zero is a `ZeroDivisionError`, and any NaN
operand yields a NaN in a freshly allocated object. -/
def pyDivByFloat (x : PyVal) (s : ℚ) : Except PyErr PyVal :=
  match x with
  | .none => .error .typeError
  | .float f =>
      if s = 0 then .error .zeroDivisionError
      else
        match f with
        | .fin q => .ok (.float (.fin (q / s)))
        | _ => .ok (.float .nanFresh)

/-- Python `x * w` for `x` a value and `w` a finite float; the result is a
freshly allocated float object. -/
def pyMulByFloat (x : PyVal) (w : ℚ) : Except PyErr PyVal :=
  match x with
  | .none => .error .typeError
  | .float (.fin q) => .ok (.float (.fin (q * w)))
  | .float _ => .ok (.float .nanFresh)

/-- State of a `BVSRestraint` instance: the wrapped calculator reduced to
its `bvmsdiff` result attribute (written by `eval`), the borrowed
reference to the restrained structure, and the `sig` / `scaled`
configuration. -/
structure BVSRestraint where
  calcBvmsdiff : PyVal
  stru : Nat
  sig : ℚ
  scaled : Bool
deriving DecidableEq

/-- `BVSRestraint.__init__(stru, sig, scaled)`: builds a fresh calculator,
stores the structure reference, `float(sig)` and `bool(scaled)`.  The
source performs no further check on either argument. -/
def BVSRestraint.init (stru : Nat) (sig : PyNum) (scaled : PyNum) : BVSRestraint :=
  { calcBvmsdiff := .float (.fin 0)
    stru := stru
    sig := sig.toFloat
    scaled := scaled.toBool }

/-- `BVSRestraint(stru)` with the source defaults `sig = 1`,
`scaled = False`. -/
def BVSRestraint.initDefault (stru : Nat) : BVSRestraint :=
  BVSRestraint.init stru (.int 1) (.int 0)

/-- `BVSRestraint.penalty(w)`:
`self._calc.eval(self._stru)` (read the divergence of the structure
currently referenced), `penalty = self._calc.bvmsdiff`,
`penalty /= self.sig**2`, `if self.scaled: penalty *= w`,
`return penalty`.  Returns the result (or the raised exception) together
with the updated instance state. -/
def BVSRestraint.penalty (self : BVSRestraint) (bvmsOf : Nat → PyVal) (w : ℚ) :
    Except PyErr PyVal × BVSRestraint :=
  let d := bvmsOf self.stru
  let self' := { self with calcBvmsdiff := d }
  match pyDivByFloat d (self.sig ^ 2) with
  | .error e => (.error e, self')
  | .ok p1 =>
      if self.scaled then
        match pyMulByFloat p1 w with
        | .error e => (.error e, self')
        | .ok p2 => (.ok p2, self')
      else (.ok p1, self')

/-- `BVSRestraint.penalty()` with the default argument `w = 1.0`. -/
def BVSRestraint.penaltyDefault (self : BVSRestraint) (bvmsOf : Nat → PyVal) :
    Except PyErr PyVal × BVSRestraint :=
  self.penalty bvmsOf 1

/-- `BVSRestraint._validate()`: `p = self.penalty()`; raise
`AttributeError` when `p is None or p is nan` — an identity test against
the interned `numpy.nan` object. -/
def BVSRestraint.validate (self : BVSRestraint) (bvmsOf : Nat → PyVal) :
    Except PyErr Unit × BVSRestraint :=
  match self.penalty bvmsOf 1 with
  | (.error e, s) => (.error e, s)
  | (.ok p, s) =>
      if p = PyVal.none ∨ p = PyVal.float .nanObj then (.error .attributeError, s)
      else (.ok (), s)

/-- A calculator whose divergence is `d` for every structure. -/
def constCalc (d : PyVal) : Nat → PyVal := fun _ => d

section Lemmas

/-- Evaluation of `penalty` when the calculator reports a finite value and
`sig` is nonzero. -/
theorem penalty_fin (r : BVSRestraint) (bvmsOf : Nat → PyVal) (w d : ℚ)
    (hd : bvmsOf r.stru = .float (.fin d)) (hsig : r.sig ≠ 0) :
    r.penalty bvmsOf w =
      (.ok (.float (.fin ((if r.scaled then d * w else d) / r.sig ^ 2))),
       { r with calcBvmsdiff := .float (.fin d) }) := by
  have h2 : r.sig ^ 2 ≠ 0 := pow_ne_zero 2 hsig
  simp only [BVSRestraint.penalty, hd, pyDivByFloat, pyMulByFloat, if_neg h2]
  cases hs : r.scaled <;> simp [div_mul_eq_mul_div]

/-- Evaluation of `penalty` when the calculator reports a NaN and `sig` is
nonzero: the result is a freshly allocated NaN. -/
theorem penalty_nan (r : BVSRestraint) (bvmsOf : Nat → PyVal) (w : ℚ) (f : PyFloat)
    (hd : bvmsOf r.stru = .float f)
    (hnan : ∀ q : ℚ, f ≠ .fin q) (hsig : r.sig ≠ 0) :
    r.penalty bvmsOf w =
      (.ok (.float .nanFresh), { r with calcBvmsdiff := .float f }) := by
  have h2 : r.sig ^ 2 ≠ 0 := pow_ne_zero 2 hsig
  cases f with
  | fin q => exact absurd rfl (hnan q)
  | nanObj =>
      simp only [BVSRestraint.penalty, hd, pyDivByFloat, pyMulByFloat, if_neg h2]
      cases hs : r.scaled <;> simp
  | nanFresh =>
      simp only [BVSRestraint.penalty, hd, pyDivByFloat, pyMulByFloat, if_neg h2]
      cases hs : r.scaled <;> simp

/-- Evaluation of `penalty` when the calculator reports `None`: the
division raises `TypeError`. -/
theorem penalty_none (r : BVSRestraint) (bvmsOf : Nat → PyVal) (w : ℚ)
    (hd : bvmsOf r.stru = .none) :
    r.penalty bvmsOf w = (.error .typeError, { r with calcBvmsdiff := .none }) := by
  simp [BVSRestraint.penalty, hd, pyDivByFloat]

/-- Evaluation of `penalty` when `sig = 0`: the division raises
`ZeroDivisionError`. -/
theorem penalty_sig_zero (r : BVSRestraint) (bvmsOf : Nat → PyVal) (w : ℚ) (f : PyFloat)
    (hd : bvmsOf r.stru = .float f) (hsig : r.sig = 0) :
    r.penalty bvmsOf w = (.error .zeroDivisionError, { r with calcBvmsdiff := .float f }) := by
  simp [BVSRestraint.penalty, hd, pyDivByFloat, hsig]

end Lemmas

section HelperLemmas

/-- The instance state after any `penalty` call: only the calculator result
attribute changes, to the divergence of the currently referenced
structure. -/
theorem penalty_state (r : BVSRestraint) (bvmsOf : Nat → PyVal) (w : ℚ) :
    (r.penalty bvmsOf w).2 = { r with calcBvmsdiff := bvmsOf r.stru } := by
  unfold BVSRestraint.penalty
  cases hq : pyDivByFloat (bvmsOf r.stru) (r.sig ^ 2) with
  | error e => simp [hq]
  | ok p =>
      cases hm : pyMulByFloat p w with
      | error e2 => cases hs : r.scaled <;> simp [hq, hs, hm]
      | ok p2 => cases hs : r.scaled <;> simp [hq, hs, hm]

/-- The returned value of `penalty` does not depend on the calculator
result cached from an earlier call: every call overwrites it first. -/
theorem penalty_result_ignores_cache (r : BVSRestraint) (c : PyVal)
    (bvmsOf : Nat → PyVal) (w : ℚ) :
    (BVSRestraint.penalty { r with calcBvmsdiff := c } bvmsOf w).1
      = (r.penalty bvmsOf w).1 := by
  unfold BVSRestraint.penalty
  cases hq : pyDivByFloat (bvmsOf r.stru) (r.sig ^ 2) with
  | error e => simp [hq]
  | ok p =>
      cases hm : pyMulByFloat p w with
      | error e2 => cases hs : r.scaled <;> simp [hq, hs, hm]
      | ok p2 => cases hs : r.scaled <;> simp [hq, hs, hm]

/-- `penalty` never raises `AttributeError` itself: its only failure modes
are the `TypeError` and `ZeroDivisionError` of the arithmetic. -/
theorem penalty_no_attributeError (r : BVSRestraint) (bvmsOf : Nat → PyVal) (w : ℚ) :
    (r.penalty bvmsOf w).1 ≠ .error .attributeError := by
  rcases hcase : bvmsOf r.stru with _ | f
  · rw [penalty_none r bvmsOf w hcase]; simp
  · by_cases hsig : r.sig = 0
    · rw [penalty_sig_zero r bvmsOf w f hcase hsig]; simp
    · cases f with
      | fin d => rw [penalty_fin r bvmsOf w d hcase hsig]; simp
      | nanObj => rw [penalty_nan r bvmsOf w _ hcase (by simp) hsig]; simp
      | nanFresh => rw [penalty_nan r bvmsOf w _ hcase (by simp) hsig]; simp

end HelperLemmas

/-- C1 counterexample: with `sig = 1`, `scaled = True`, `w = 2` and a
calculator always reporting divergence `4`, `penalty` returns `8`, not the
`2.0` the claim asserts. -/
theorem C1_counterexample :
    (BVSRestraint.penalty
        { calcBvmsdiff := .float (.fin 0), stru := 0, sig := 1, scaled := true }
        (constCalc (.float (.fin 4))) 2).1 = .ok (.float (.fin 8)) ∧
    (8 : ℚ) ≠ 2 := by
  constructor
  · rw [penalty_fin _ _ 2 4 rfl one_ne_zero]
    norm_num
  · norm_num

/-- C1 (amended): for a finite divergence `d` and nonzero `sig`,
`penalty(w)` returns `d / sig ^ 2` when unscaled and `d * w / sig ^ 2`
when scaled; in particular a constant-`4` calculator gives `4` at
`sig = 1` unscaled for every `w`, `1` at `sig = 2` unscaled, and `2` at
`sig = 2`, scaled, `w = 2`. -/
theorem C1_penalty_formula (cb : PyVal) (stru : Nat) (sig w d : ℚ) (scaled : Bool)
    (hsig : sig ≠ 0) :
    ((BVSRestraint.penalty { calcBvmsdiff := cb, stru := stru, sig := sig, scaled := scaled }
        (constCalc (.float (.fin d))) w).1
      = .ok (.float (.fin (if scaled then d * w / sig ^ 2 else d / sig ^ 2)))) ∧
    ((BVSRestraint.penalty { calcBvmsdiff := cb, stru := stru, sig := 1, scaled := false }
        (constCalc (.float (.fin 4))) w).1 = .ok (.float (.fin 4))) ∧
    ((BVSRestraint.penalty { calcBvmsdiff := cb, stru := stru, sig := 2, scaled := false }
        (constCalc (.float (.fin 4))) w).1 = .ok (.float (.fin 1))) ∧
    ((BVSRestraint.penalty { calcBvmsdiff := cb, stru := stru, sig := 2, scaled := true }
        (constCalc (.float (.fin 4))) 2).1 = .ok (.float (.fin 2))) := by
  refine ⟨?_, ?_, ?_, ?_⟩
  · rw [penalty_fin _ _ w d rfl hsig]
    cases scaled <;> simp
  · rw [penalty_fin _ _ w 4 rfl one_ne_zero]; norm_num
  · rw [penalty_fin _ _ w 4 rfl two_ne_zero]; norm_num
  · rw [penalty_fin _ _ 2 4 rfl two_ne_zero]; norm_num

/-- C1 witness: the formula instantiated at `sig = 1`, `w = 5`, `d = 4`,
unscaled. -/
theorem C1_penalty_formula_witness :
    (BVSRestraint.penalty { calcBvmsdiff := .none, stru := 0, sig := 1, scaled := false }
        (constCalc (.float (.fin 4))) 5).1 = .ok (.float (.fin 4)) :=
  (C1_penalty_formula PyVal.none 0 1 5 4 false one_ne_zero).2.1

/-- C2: the spec requires `_validate` to signal a configuration error when
the penalty is undefined (NaN).  At the failing input — the calculator
reports the `numpy.nan` value, `sig = 1`, `scaled = False` — the computed
penalty is a NaN in a freshly allocated float object, so the source's
identity test `p is nan` is false and `_validate` raises nothing. -/
theorem C2_validate_misses_nan :
    (BVSRestraint.validate
        { calcBvmsdiff := .float (.fin 0), stru := 0, sig := 1, scaled := false }
        (constCalc (.float .nanObj))).1 = .ok () ∧
    (BVSRestraint.penalty
        { calcBvmsdiff := .float (.fin 0), stru := 0, sig := 1, scaled := false }
        (constCalc (.float .nanObj)) 1).1 = .ok (.float .nanFresh) := by
  have hp := penalty_nan
    { calcBvmsdiff := .float (.fin 0), stru := 0, sig := 1, scaled := false }
    (constCalc (.float .nanObj)) 1 .nanObj rfl (by simp) one_ne_zero
  constructor
  · unfold BVSRestraint.validate
    rw [hp]
    simp
  · rw [hp]

/-- C3 counterexample: `BVSRestraint.__init__` performs no check on `sig`;
constructing with `sig = -1` succeeds and yields an instance whose stored
`sig` is `-1`, refuting that every successfully constructed restraint has
`sig > 0`. -/
theorem C3_counterexample :
    (BVSRestraint.init 0 (.float (-1)) (.int 0)).sig = -1 ∧
    ¬ (0 < (BVSRestraint.init 0 (.float (-1)) (.int 0)).sig) := by
  constructor
  · rfl
  · show ¬ ((0 : ℚ) < -1)
    norm_num

/-- C3 (amended): the constructor stores `float(sig)` for any `sig`,
without validation; a zero `sig` is not rejected at construction, and the
error surfaces only at fit time, as a `ZeroDivisionError` inside
`penalty`. -/
theorem C3_no_sig_validation (stru : Nat) (sig scaled : PyNum) (d w : ℚ) :
    (BVSRestraint.init stru sig scaled).sig = sig.toFloat ∧
    ((BVSRestraint.init stru (.int 0) scaled).penalty (constCalc (.float (.fin d))) w).1
      = .error .zeroDivisionError := by
  refine ⟨rfl, ?_⟩
  have hs : (BVSRestraint.init stru (.int 0) scaled).sig = 0 := by
    show ((0 : ℤ) : ℚ) = 0
    norm_num
  rw [penalty_sig_zero _ _ w (.fin d) rfl hs]

/-- C4: with `scaled = False` the penalty is invariant to `w`; with
`scaled = True` and a finite penalty at `w = 1`, the penalty at any `w`
is `w` times the penalty at `1`. -/
theorem C4_w_invariance_and_linearity (r : BVSRestraint) (bvmsOf : Nat → PyVal)
    (w w1 w2 : ℚ) :
    (r.scaled = false → (r.penalty bvmsOf w1).1 = (r.penalty bvmsOf w2).1) ∧
    (r.scaled = true → ∀ q : ℚ, (r.penalty bvmsOf 1).1 = .ok (.float (.fin q)) →
      (r.penalty bvmsOf w).1 = .ok (.float (.fin (w * q)))) := by
  constructor
  · intro hs
    rcases hcase : bvmsOf r.stru with _ | f
    · rw [penalty_none r bvmsOf w1 hcase, penalty_none r bvmsOf w2 hcase]
    · by_cases hsig : r.sig = 0
      · rw [penalty_sig_zero r bvmsOf w1 f hcase hsig,
            penalty_sig_zero r bvmsOf w2 f hcase hsig]
      · cases f with
        | fin d =>
            rw [penalty_fin r bvmsOf w1 d hcase hsig,
                penalty_fin r bvmsOf w2 d hcase hsig]
            simp [hs]
        | nanObj =>
            rw [penalty_nan r bvmsOf w1 _ hcase (by simp) hsig,
                penalty_nan r bvmsOf w2 _ hcase (by simp) hsig]
        | nanFresh =>
            rw [penalty_nan r bvmsOf w1 _ hcase (by simp) hsig,
                penalty_nan r bvmsOf w2 _ hcase (by simp) hsig]
  · intro hs q hq
    rcases hcase : bvmsOf r.stru with _ | f
    · rw [penalty_none r bvmsOf 1 hcase] at hq
      simp at hq
    · by_cases hsig : r.sig = 0
      · rw [penalty_sig_zero r bvmsOf 1 f hcase hsig] at hq
        simp at hq
      · cases f with
        | fin d =>
            rw [penalty_fin r bvmsOf 1 d hcase hsig] at hq
            rw [penalty_fin r bvmsOf w d hcase hsig]
            simp only [hs, if_true] at hq ⊢
            simp only [Except.ok.injEq, PyVal.float.injEq, PyFloat.fin.injEq] at hq ⊢
            rw [← hq]
            ring
        | nanObj =>
            rw [penalty_nan r bvmsOf 1 _ hcase (by simp) hsig] at hq
            simp at hq
        | nanFresh =>
            rw [penalty_nan r bvmsOf 1 _ hcase (by simp) hsig] at hq
            simp at hq

/-- C4 witness: the two parts instantiated at concrete restraints with a
constant-`3` calculator. -/
theorem C4_w_invariance_and_linearity_witness :
    ((BVSRestraint.penalty { calcBvmsdiff := .none, stru := 0, sig := 1, scaled := false }
        (constCalc (.float (.fin 3))) 2).1
      = (BVSRestraint.penalty { calcBvmsdiff := .none, stru := 0, sig := 1, scaled := false }
        (constCalc (.float (.fin 3))) 7).1) ∧
    (BVSRestraint.penalty { calcBvmsdiff := .none, stru := 0, sig := 1, scaled := true }
        (constCalc (.float (.fin 3))) 5).1 = .ok (.float (.fin (5 * 3))) := by
  constructor
  · exact (C4_w_invariance_and_linearity
      { calcBvmsdiff := .none, stru := 0, sig := 1, scaled := false }
      (constCalc (.float (.fin 3))) 0 2 7).1 rfl
  · refine (C4_w_invariance_and_linearity
      { calcBvmsdiff := .none, stru := 0, sig := 1, scaled := true }
      (constCalc (.float (.fin 3))) 5 0 0).2 rfl 3 ?_
    rw [penalty_fin _ _ 1 3 rfl one_ne_zero]
    norm_num

/-- C5: for uncertainties `0 < sig1 < sig2`, the same nonnegative raw
divergence `d` and the same nonnegative `w`, the penalty computed with
`sig1` is at least the penalty computed with `sig2`. -/
theorem C5_penalty_antitone_in_sig (cb : PyVal) (stru : Nat) (sig1 sig2 d w : ℚ)
    (scaled : Bool) (h1 : 0 < sig1) (h12 : sig1 < sig2) (hd : 0 ≤ d) (hw : 0 ≤ w) :
    ∃ q1 q2 : ℚ,
      (BVSRestraint.penalty { calcBvmsdiff := cb, stru := stru, sig := sig1, scaled := scaled }
          (constCalc (.float (.fin d))) w).1 = .ok (.float (.fin q1)) ∧
      (BVSRestraint.penalty { calcBvmsdiff := cb, stru := stru, sig := sig2, scaled := scaled }
          (constCalc (.float (.fin d))) w).1 = .ok (.float (.fin q2)) ∧
      q2 ≤ q1 := by
  have h2 : 0 < sig2 := h1.trans h12
  refine ⟨(if scaled then d * w else d) / sig1 ^ 2,
          (if scaled then d * w else d) / sig2 ^ 2, ?_, ?_, ?_⟩
  · rw [penalty_fin _ _ w d rfl h1.ne']
  · rw [penalty_fin _ _ w d rfl h2.ne']
  · have hnum : 0 ≤ (if scaled then d * w else d) := by
      cases scaled <;> simp [hd, mul_nonneg hd hw]
    have hpow : sig1 ^ 2 ≤ sig2 ^ 2 := pow_le_pow_left₀ h1.le h12.le 2
    exact div_le_div_of_nonneg_left hnum (pow_pos h1 2) hpow

/-- C5 witness: instantiated at `sig1 = 1`, `sig2 = 2`, `d = 4`, `w = 1`,
unscaled. -/
theorem C5_penalty_antitone_in_sig_witness :
    ∃ q1 q2 : ℚ,
      (BVSRestraint.penalty { calcBvmsdiff := .none, stru := 0, sig := 1, scaled := false }
          (constCalc (.float (.fin 4))) 1).1 = .ok (.float (.fin q1)) ∧
      (BVSRestraint.penalty { calcBvmsdiff := .none, stru := 0, sig := 2, scaled := false }
          (constCalc (.float (.fin 4))) 1).1 = .ok (.float (.fin q2)) ∧
      q2 ≤ q1 :=
  C5_penalty_antitone_in_sig .none 0 1 2 4 1 false (by norm_num) (by norm_num)
    (by norm_num) (by norm_num)

/-- C6: the constructor defaults are `sig = 1` and `scaled = False`, the
supplied `sig` is coerced with `float` and `scaled` with `bool`, and
`penalty` without a caller-supplied `w` uses `w = 1`. -/
theorem C6_constructor_defaults (stru : Nat) (sig scaled : PyNum) (r : BVSRestraint)
    (bvmsOf : Nat → PyVal) :
    (BVSRestraint.initDefault stru).sig = 1 ∧
    (BVSRestraint.initDefault stru).scaled = false ∧
    (BVSRestraint.init stru sig scaled).sig = sig.toFloat ∧
    (BVSRestraint.init stru sig scaled).scaled = scaled.toBool ∧
    r.penaltyDefault bvmsOf = r.penalty bvmsOf 1 := by
  refine ⟨?_, ?_, rfl, rfl, rfl⟩
  · show ((1 : ℤ) : ℚ) = 1
    norm_num
  · show PyNum.toBool (.int 0) = false
    decide

/-- C7: `penalty` leaves `sig`, `scaled` and the structure reference
unchanged; its returned value ignores the calculator result cached from
any earlier call; and a call made after another call behaves exactly like
a call on the freshly constructed state against the current structure
(no caching between calls). -/
theorem C7_penalty_frame (r : BVSRestraint) (bvmsOf bvmsOf2 : Nat → PyVal)
    (w w2 : ℚ) (c : PyVal) :
    ((r.penalty bvmsOf w).2.sig = r.sig ∧
     (r.penalty bvmsOf w).2.scaled = r.scaled ∧
     (r.penalty bvmsOf w).2.stru = r.stru) ∧
    ((BVSRestraint.penalty { r with calcBvmsdiff := c } bvmsOf w).1
      = (r.penalty bvmsOf w).1) ∧
    (((r.penalty bvmsOf w).2).penalty bvmsOf2 w2).1 = (r.penalty bvmsOf2 w2).1 := by
  refine ⟨?_, penalty_result_ignores_cache r c bvmsOf w, ?_⟩
  · rw [penalty_state]
    exact ⟨rfl, rfl, rfl⟩
  · rw [penalty_state]
    exact penalty_result_ignores_cache r (bvmsOf r.stru) bvmsOf2 w2

/-- C8: two consecutive `penalty` calls with the same `w` and no
intervening change to the structure return identical results, and the
second call leaves the instance state exactly as the first did. -/
theorem C8_penalty_deterministic (r : BVSRestraint) (bvmsOf : Nat → PyVal) (w : ℚ) :
    (((r.penalty bvmsOf w).2).penalty bvmsOf w).1 = (r.penalty bvmsOf w).1 ∧
    (((r.penalty bvmsOf w).2).penalty bvmsOf w).2 = (r.penalty bvmsOf w).2 := by
  constructor
  · rw [penalty_state]
    exact penalty_result_ignores_cache r (bvmsOf r.stru) bvmsOf w
  · simp [penalty_state]

/-- C9: `_validate` signals `AttributeError` exactly when the value
`penalty()` returns is the object `None` or the interned `numpy.nan`
object itself — the identity test of the source, not a numeric NaN
test. -/
theorem C9_validate_attributeerror_iff (r : BVSRestraint) (bvmsOf : Nat → PyVal) :
    (r.validate bvmsOf).1 = .error .attributeError ↔
      (∃ p, (r.penalty bvmsOf 1).1 = .ok p ∧
        (p = PyVal.none ∨ p = PyVal.float .nanObj)) := by
  unfold BVSRestraint.validate
  cases hq : r.penalty bvmsOf 1 with
  | mk res s =>
      cases res with
      | error e =>
          have hne : e ≠ .attributeError := by
            have h := penalty_no_attributeError r bvmsOf 1
            rw [hq] at h
            simpa using h
          simp [hq, hne]
      | ok p =>
          by_cases hp : p = PyVal.none ∨ p = PyVal.float .nanObj
          · simp only [hq, if_pos hp]
            simp [hp]
          · simp only [hq, if_neg hp]
            simp [hp]

/-- C9 witness: at a calculator reporting the `numpy.nan` object with
`sig = 1`, the computed penalty is a fresh NaN, so by the
characterization `_validate` does not raise `AttributeError`. -/
theorem C9_validate_attributeerror_iff_witness :
    ¬ ((BVSRestraint.validate
          { calcBvmsdiff := .none, stru := 0, sig := 1, scaled := false }
          (constCalc (.float .nanObj))).1 = .error .attributeError) := by
  intro h
  obtain ⟨p, hp, hor⟩ := (C9_validate_attributeerror_iff
    { calcBvmsdiff := .none, stru := 0, sig := 1, scaled := false }
    (constCalc (.float .nanObj))).mp h
  rw [penalty_nan _ _ 1 .nanObj rfl (by simp) one_ne_zero] at hp
  simp only [Except.ok.injEq] at hp
  rw [← hp] at hor
  simp at hor

/-- C10: at the default reweighting value `w = 1`, a scaled restraint and
an otherwise identical unscaled restraint return the same penalty, for
every calculator behaviour and every `sig`. -/
theorem C10_scaled_is_identity_at_default_w (cb1 cb2 : PyVal) (stru : Nat) (sig : ℚ)
    (bvmsOf : Nat → PyVal) :
    (BVSRestraint.penalty { calcBvmsdiff := cb1, stru := stru, sig := sig, scaled := true }
        bvmsOf 1).1
      = (BVSRestraint.penalty { calcBvmsdiff := cb2, stru := stru, sig := sig, scaled := false }
        bvmsOf 1).1 := by
  rcases hcase : bvmsOf stru with _ | f
  · rw [penalty_none _ bvmsOf 1 hcase, penalty_none _ bvmsOf 1 hcase]
  · by_cases hsig : sig = 0
    · rw [penalty_sig_zero _ bvmsOf 1 f hcase hsig, penalty_sig_zero _ bvmsOf 1 f hcase hsig]
    · cases f with
      | fin d =>
          rw [penalty_fin _ bvmsOf 1 d hcase hsig, penalty_fin _ bvmsOf 1 d hcase hsig]
          simp
      | nanObj =>
          rw [penalty_nan _ bvmsOf 1 _ hcase (by simp) hsig,
              penalty_nan _ bvmsOf 1 _ hcase (by simp) hsig]
      | nanFresh =>
          rw [penalty_nan _ bvmsOf 1 _ hcase (by simp) hsig,
              penalty_nan _ bvmsOf 1 _ hcase (by simp) hsig]
